import Mathlib

/-!
Verification of the answer-orchestration core of the eduagent backend
(`src/api/agent.py` and `src/api/web_scraper.py`).

The Python code is asynchronous and calls external collaborators (a chat
model, a retrieval chain, a search provider, HTTP scraping).  We embed it
shallowly: every external call's outcome is an explicit parameter (an
"environment"), and each Python function becomes a total Lean function of
its inputs and that environment.  Python strings are Lean `String`s
(sequences of Unicode code points, as in CPython); `str.lower()` is
modelled by ASCII lowercasing (`String.toLower`), which agrees with CPython
on all the ASCII marker phrases involved; `x in s` is substring containment.
-/

namespace EduAgent

/-- Python whitespace (`\s` and the default `str.strip` set, ASCII part):
space, tab, newline, carriage return, vertical tab, form feed. -/
def isPySpace (c : Char) : Bool :=
  c = ' ' || c = '\t' || c = '\n' || c = '\x0d' || c = '\x0b' || c = '\x0c'

/-- Python `str.strip()`: drop whitespace from both ends. -/
def pyStrip (s : String) : String :=
  String.mk (((s.data.dropWhile isPySpace).reverse.dropWhile isPySpace).reverse)

/-- Python `s.lower()` restricted to ASCII case mapping, which agrees with
CPython on every marker phrase and message the code compares against. -/
def pyLower (s : String) : String :=
  String.mk (s.data.map Char.toLower)

/-- Python `s[:n]`: the first `n` code points of `s` (all of `s` if shorter). -/
def pyTake (s : String) (n : Nat) : String :=
  String.mk (s.data.take n)

/-- Python `needle in hay` for strings: contiguous substring containment. -/
def containsSub (hay needle : String) : Bool :=
  decide (needle.data <:+: hay.data)

/-- Case-insensitive containment, Python `needle in hay.lower()` for an
already lower-case ASCII `needle`. -/
def containsLower (hay needle : String) : Bool :=
  containsSub (pyLower hay) needle

/-- `agent.py` line 145 / 163: the fixed non-answer phrase list used by
`get_rag_answer` on the retrieval chain's output. -/
def rag_non_answer_phrases : List String :=
  ["cannot find relevant information", "context doesn't contain",
   "context does not contain", "based on the context provided",
   "based on the text provided", "information provided does not",
   "i cannot answer"]

/-- `agent.py` line 265: the fixed non-answer phrase list used by
`_process_web_content` on the synthesised web answer. -/
def web_non_answer_phrases : List String :=
  ["cannot find relevant information", "answer is not found",
   "content does not provide", "based on the provided content",
   "information given does not", "i cannot answer",
   "provided text does not contain"]

/-- `any(phrase in text.lower() for phrase in phrases)`. -/
def is_non_answer (phrases : List String) (t : String) : Bool :=
  phrases.any (fun p => containsLower t p)

/-- `agent.py` line 147: `len(result_text) < 50 and ("based on" in lower or
"context" in lower)`. -/
def rag_is_too_short (t : String) : Bool :=
  decide (t.length < 50) && (containsLower t "based on" || containsLower t "context")

/-- `agent.py` line 268: `len(clean_answer) < 60 and ("based on" in lower or
"content" in lower)`. -/
def web_is_too_short (t : String) : Bool :=
  decide (t.length < 60) && (containsLower t "based on" || containsLower t "content")

/-- `agent.py` line 267: `"error" in lower and ("llm" in lower or
"generating response" in lower)`. -/
def web_is_error_message (t : String) : Bool :=
  containsLower t "error" && (containsLower t "llm" || containsLower t "generating response")

/-- The three-way answer-quality classification the spec describes
(§4.1): unavailable marker, short hedging deflection, or a genuine answer. -/
inductive AnswerClass where
  | UNAVAILABLE
  | TOO_SHORT_HEDGE
  | OK
deriving DecidableEq, Repr

/-- Classification of a document/model answer as `get_rag_answer` performs
it (lines 145-148): the unavailable-marker test is checked first, then the
short-hedge test; both failing means the raw text is kept. -/
def classifyDoc (t : String) : AnswerClass :=
  if is_non_answer rag_non_answer_phrases t then .UNAVAILABLE
  else if rag_is_too_short t then .TOO_SHORT_HEDGE
  else .OK

/-- Classification of a web-synthesis answer as `_process_web_content`
performs it (lines 265-270). -/
def classifyWeb (t : String) : AnswerClass :=
  if is_non_answer web_non_answer_phrases t then .UNAVAILABLE
  else if web_is_too_short t then .TOO_SHORT_HEDGE
  else .OK

/-- The spec's classifier for document/model answers, written from the
claim's words: threshold 50, hedging markers "based on", "context" and
"content" all three. -/
def specClassifyDoc (t : String) : AnswerClass :=
  if is_non_answer rag_non_answer_phrases t then .UNAVAILABLE
  else if decide (t.length < 50) &&
      (containsLower t "based on" || containsLower t "context" || containsLower t "content")
    then .TOO_SHORT_HEDGE
  else .OK

/-- The amended spec classifier for document/model answers: the hedging
markers are only "based on" and "context". -/
def specClassifyDocAmended (t : String) : AnswerClass :=
  if is_non_answer rag_non_answer_phrases t then .UNAVAILABLE
  else if decide (t.length < 50) &&
      (containsLower t "based on" || containsLower t "context")
    then .TOO_SHORT_HEDGE
  else .OK

/-- The amended spec classifier for web-synthesis answers: threshold 60,
hedging markers "based on" and "content". -/
def specClassifyWebAmended (t : String) : AnswerClass :=
  if is_non_answer web_non_answer_phrases t then .UNAVAILABLE
  else if decide (t.length < 60) &&
      (containsLower t "based on" || containsLower t "content")
    then .TOO_SHORT_HEDGE
  else .OK

/-! ### Reasoning-markup stripping (`clean_llm_output`, agent.py lines 317-321)

`re.sub(r"<think>.*?</think>\s*", "", text, flags=re.DOTALL)` scans left to
right; at an occurrence of `<think>` the non-greedy `.*?` runs to the first
following `</think>`, the greedy `\s*` then swallows the whitespace run after
it, the whole match is deleted, and scanning resumes after the match. -/

/-- The characters of the opening tag. -/
def thinkOpen : List Char := "<think>".data

/-- The characters of the closing tag. -/
def thinkClose : List Char := "</think>".data

/-- The suffix of `l` that follows the first occurrence of the closing tag,
or `none` when the closing tag does not occur in `l`. -/
def dropAfterClose : List Char → Option (List Char)
  | [] => none
  | c :: rest =>
    if thinkClose.isPrefixOf (c :: rest) then some ((c :: rest).drop 8)
    else dropAfterClose rest

/-- One left-to-right pass of `re.sub(r"<think>.*?</think>\s*", "", ·)`
(DOTALL) over a character list, with explicit fuel so the recursion is
structural (every recursive call consumes at least one character, so fuel
equal to the list length always suffices and the fuel-exhausted branch is
unreachable from `subThink`). -/
def subThinkAux : Nat → List Char → List Char
  | 0, l => l
  | _ + 1, [] => []
  | fuel + 1, c :: rest =>
    if thinkOpen.isPrefixOf (c :: rest) then
      match dropAfterClose (rest.drop 6) with
      | some tail => subThinkAux fuel (tail.dropWhile isPySpace)
      | none => c :: subThinkAux fuel rest
    else c :: subThinkAux fuel rest

/-- `re.sub(r"<think>.*?</think>\s*", "", l)` with DOTALL. -/
def subThink (l : List Char) : List Char :=
  subThinkAux l.length l

/-- `agent.py` lines 317-321, `clean_llm_output`: remove every
`<think>...</think>` block (with trailing whitespace) and strip the ends. -/
def clean_llm_output (t : String) : String :=
  pyStrip (String.mk (subThink t.data))

/-! ### Scraped-text cleaning (`web_scraper.py` line 107)

`re.sub(r'\n\s*\n', '\n', text)`: a match is a newline, a greedy whitespace
run, and a final newline; the greedy `\s*` backtracks to the last newline
reachable inside the whitespace run following the opening newline. -/

/-- One left-to-right pass of `re.sub(r'\n\s*\n', '\n', ·)` over a
character list, fuelled as in `subThinkAux`.  After an opening newline the
greedy `\s*` backtracks to the last newline inside the whitespace run `ws`
(`m` counts the whitespace characters after that last newline). -/
def collapseNLAux : Nat → List Char → List Char
  | 0, l => l
  | _ + 1, [] => []
  | fuel + 1, c :: rest =>
    if c = '\n' then
      let ws := rest.takeWhile isPySpace
      if ws.contains '\n' then
        let m := (ws.reverse.takeWhile (fun d => !(d = '\n'))).length
        '\n' :: collapseNLAux fuel (rest.drop (ws.length - m))
      else c :: collapseNLAux fuel rest
    else c :: collapseNLAux fuel rest

/-- `re.sub(r'\n\s*\n', '\n', l)`. -/
def collapseNL (l : List Char) : List Char :=
  collapseNLAux l.length l

/-- The `cleaned_text` of `scrape_url`:
`re.sub(r'\n\s*\n', '\n', text_content).strip()`. -/
def cleanScraped (t : String) : String :=
  pyStrip (String.mk (collapseNL t.data))

/-! ### Source fetchers (`agent.py`) -/

/-- Outcome of the external retrieval-chain interaction inside
`get_rag_answer` (lines 131-179).  The `NotImplementedError` sync-fallback
branch re-runs the same post-processing with its own fixed strings and is
not separately modelled; the async path is the one the claims cite. -/
inductive RagEnv where
  | initFail
  | invokeRaises
  | badFormat
  | invokeOk (result : String)

/-- `agent.py` lines 131-179, `get_rag_answer` (async path). -/
def get_rag_answer (subject : String) (env : RagEnv) : String :=
  match env with
  | .initFail =>
      "Error initializing QA chain for " ++ subject ++
        ". Knowledge base might be missing or corrupt. Please try creating/updating it."
  | .invokeRaises => "An error occurred while retrieving the RAG answer."
  | .badFormat => "Received an unexpected response format from the RAG system."
  | .invokeOk result =>
      let result_text := pyStrip result
      if is_non_answer rag_non_answer_phrases result_text || rag_is_too_short result_text then
        "The documents for " ++ subject ++ " do not seem to contain an answer to this question."
      else result_text

/-- Outcome of `self.llm.ainvoke(prompt)` in `get_llm_answer`
(lines 182-203).  The awaited value is a message object; in
`response.content if response else ...` the truthiness test is on the
object, and a Python object with neither a custom truth value nor a length
is truthy even when its `content` string is empty — so `none` here models a
falsy (absent) response, and `some c` a message object whose content is
`c`, possibly the empty string. -/
inductive LLMEnv where
  | ok (resp : Option String)
  | notImpl (sync : Except Unit (Option String))
  | raises

/-- `agent.py` lines 182-203, `get_llm_answer`. -/
def get_llm_answer (env : LLMEnv) : String :=
  match env with
  | .ok (some c) => c
  | .ok none => "LLM returned an empty response."
  | .notImpl (.ok (some c)) => c
  | .notImpl (.ok none) => "LLM returned empty (sync fallback)."
  | .notImpl (.error _) => "An error occurred contacting LLM (sync fallback)."
  | .raises => "An error occurred while contacting the Language Model."

/-- Outcome of one gathered scrape task inside `_process_web_content`
(lines 216-226): the task raised, or `scrape_url` returned a string
(the empty string meaning no usable content). -/
inductive ScrapeOutcome where
  | exc
  | ok (content : String)

/-- The text a scrape outcome contributes: `none` when the loop counts the
outcome as failed (`isinstance(result, Exception) or not result`). -/
def usable : ScrapeOutcome → Option String
  | .exc => none
  | .ok c => if c = "" then none else some c

/-- The loop of lines 219-226: `web_content += result + "\n\n"` over the
gathered results, in input order. -/
def web_content_of (scrapes : List ScrapeOutcome) : String :=
  scrapes.foldl
    (fun acc r => match usable r with | some c => acc ++ c ++ "\n\n" | none => acc) ""

/-- `successful_scrapes` counter of the same loop. -/
def successful_scrapes (scrapes : List ScrapeOutcome) : Nat :=
  scrapes.countP (fun r => (usable r).isSome)

/-- `failed_scrapes` counter of the same loop. -/
def failed_scrapes (scrapes : List ScrapeOutcome) : Nat :=
  scrapes.countP (fun r => (usable r).isNone)

/-- `max_length = 15000` (line 234). -/
def web_max_length : Nat := 15000

/-- Result of the web-synthesis fetcher, instrumented with the truncated
web content embedded in the single synthesis prompt (`none` = the
completion service was never invoked). -/
structure WebResult where
  answer : String
  sentContent : Option String

/-- `agent.py` lines 205-282, `_process_web_content`.  `scrapes` are the
gathered per-URL scrape outcomes (one per input URL, in order); `llmCall`
is the outcome of the `run_in_executor(None, sync_query_llm, prompt)` call:
an exception, or the string `query_llm` returned. -/
def _process_web_content (scrapes : List ScrapeOutcome) (llmCall : Except Unit String) :
    WebResult :=
  let web_content := web_content_of scrapes
  if web_content = "" then
    if successful_scrapes scrapes = 0 && failed_scrapes scrapes > 0 then
      ⟨"Found websites, but failed to scrape content from any of them.", none⟩
    else if successful_scrapes scrapes = 0 && failed_scrapes scrapes = 0 then
      ⟨"No websites provided for scraping.", none⟩
    else ⟨"Scraped some websites, but could not extract meaningful content.", none⟩
  else
    let truncated_content := pyTake web_content web_max_length
    match llmCall with
    | .error _ => ⟨"Error synthesizing answer from web content.", some truncated_content⟩
    | .ok llm_response =>
      if containsSub llm_response "Error:" then
        ⟨"Error synthesizing answer from web content.", some truncated_content⟩
      else
        let clean_answer := pyStrip llm_response
        if is_non_answer web_non_answer_phrases clean_answer ||
            web_is_too_short clean_answer then
          ⟨"Could not find a specific answer from the scraped web content.", some truncated_content⟩
        else if web_is_error_message clean_answer then
          ⟨"Error synthesizing answer from web content.", some truncated_content⟩
        else ⟨clean_answer, some truncated_content⟩

/-! ### Aggregator (`agent.py` lines 284-353, `aggregate_answers`) -/

/-- Line 289. -/
def rag_unavailable_msgs : List String :=
  ["please create", "error initializing", "cannot get rag", "qa chain for",
   "failed to load", "unexpected response format", "an error occurred",
   "do not seem to contain", "failed/returned none"]

/-- Line 290. -/
def llm_unavailable_msgs : List String :=
  ["llm returned an empty", "an error occurred", "failed/returned none"]

/-- Line 291. -/
def web_unavailable_msgs : List String :=
  ["web search failed", "could not find relevant websites",
   "failed to scrape content", "could not extract meaningful content",
   "could not find a specific answer", "error synthesizing answer",
   "no websites provided", "failed/returned none"]

/-- Line 293: `isinstance(rag_answer, str) and rag_answer and not any(msg in
rag_answer.lower() for msg in rag_unavailable_msgs)` (the inputs are
strings here, so the `isinstance` test is vacuous). -/
def rag_is_available (rag_answer : String) : Bool :=
  !(rag_answer = "") && !(is_non_answer rag_unavailable_msgs rag_answer)

/-- Line 294. -/
def llm_is_available (llm_answer : String) : Bool :=
  !(llm_answer = "") && !(is_non_answer llm_unavailable_msgs llm_answer)

/-- Line 295. -/
def web_is_available (web_answer : String) : Bool :=
  !(web_answer = "") && !(is_non_answer web_unavailable_msgs web_answer)

/-- Outcome of the aggregation completion call `self.llm.ainvoke(prompt)`:
a message object (`some` content, or `none` for a falsy response, whose
content is read as `""`), a `NotImplementedError` followed by the sync
`invoke`'s outcome, or another exception. -/
inductive AggLLMOutcome where
  | ok (resp : Option String)
  | notImpl (sync : Except Unit (Option String))
  | raises

/-- `true` exactly when the synthesis completion call raised (either the
async call with a non-`NotImplementedError` exception, or the sync
fallback call after `NotImplementedError`). -/
def aggCallRaised : AggLLMOutcome → Bool
  | .raises => true
  | .notImpl (.error _) => true
  | _ => false

/-- The aggregator's result, instrumented with whether the completion
service was invoked at all. -/
structure AggResult where
  answer : String
  llmCalled : Bool

/-- `agent.py` lines 284-353, `aggregate_answers`.  `question` feeds only
the synthesis prompt, which the environment `call` abstracts. -/
def aggregate_answers (question rag_answer llm_answer web_answer : String)
    (call : AggLLMOutcome) : AggResult :=
  let ragAvail := rag_is_available rag_answer
  let llmAvail := llm_is_available llm_answer
  let webAvail := web_is_available web_answer
  let rag_input := if ragAvail then rag_answer else "Not available or not found in documents."
  let llm_input := if llmAvail then llm_answer else "LLM baseline failed or unavailable."
  let web_input := if webAvail then web_answer else "Not available or not found on web."
  if !ragAvail && !llmAvail && !webAvail then
    { answer := "Sorry, I could not find a reliable answer from any source.\nDetails:\nDocuments: "
        ++ rag_answer ++ "\nLLM: " ++ llm_answer ++ "\nWeb: " ++ web_answer,
      llmCalled := false }
  else
    match call with
    | .ok resp =>
      let raw_content := match resp with | some c => c | none => ""
      let cleaned_content := clean_llm_output raw_content
      { answer := if cleaned_content = "" then
            "Aggregation LLM returned an empty response after cleaning."
          else cleaned_content,
        llmCalled := true }
    | .notImpl (.ok resp) =>
      let raw_content := match resp with | some c => c | none => ""
      let cleaned_content := clean_llm_output raw_content
      { answer := if cleaned_content = "" then
            "Aggregation LLM returned empty (sync fallback) after cleaning."
          else cleaned_content,
        llmCalled := true }
    | .notImpl (.error _) =>
      { answer := if ragAvail then "(Aggregation Failed) Best answer from documents: " ++ rag_input
          else if webAvail then "(Aggregation Failed) Best answer from web: " ++ web_input
          else if llmAvail then "(Aggregation Failed) Best answer from baseline LLM: " ++ llm_input
          else "An error occurred during aggregation (sync fallback), and no fallback source was available.",
        llmCalled := true }
    | .raises =>
      { answer := if ragAvail then "(Aggregation Failed) Best answer from documents: " ++ rag_input
          else if webAvail then "(Aggregation Failed) Best answer from web: " ++ web_input
          else if llmAvail then "(Aggregation Failed) Best answer from baseline LLM: " ++ llm_input
          else "An error occurred during final answer aggregation, and no fallback source was available.",
        llmCalled := true }

/-! ### Orchestrator (`agent.py` lines 356-431, `get_comprehensive_answer`) -/

/-- Outcome of one gathered fetcher task: the returned string, or a raised
exception (carrying `str(exception)`), which `asyncio.gather(...,
return_exceptions=True)` delivers as a value. -/
inductive TaskOutcome where
  | ok (s : String)
  | exc (msg : String)

/-- Line 398-401: a gathered result, or the per-task error string. -/
def taskString (tag : String) : TaskOutcome → String
  | .ok s => s
  | .exc m => tag ++ m

/-- Line 368: `any("Error" in str(s) or "Missing" in str(s) for s in
web_urls)` (case-sensitive). -/
def search_error_marker (urls : List String) : Bool :=
  urls.any (fun s => containsSub s "Error" || containsSub s "Missing")

/-- `web_scraper.py` line 36: what `google_search` returns when the Google
credentials are missing. -/
def missing_credentials_result : List String :=
  ["Error: Missing Google API credentials."]

/-- The orchestrator's environment: the search call's outcome and the
outcomes of the three gathered fetcher tasks and of the aggregation
completion call.  `webTask` is only consulted when the web fetcher is
actually launched. -/
structure OrchEnv where
  search : Except Unit (List String)
  ragTask : TaskOutcome
  llmTask : TaskOutcome
  webTask : TaskOutcome
  agg : AggLLMOutcome

/-- The returned results dictionary, instrumented with whether the
web-synthesis fetcher task was launched. -/
structure ComprehensiveAnswer where
  rag : String
  llm : String
  web : String
  final : String
  sources : List String
  webLaunched : Bool

/-- `agent.py` lines 356-431, `get_comprehensive_answer`.  Every exception
path of the source is caught inside the function (the search call, each
gathered task, the aggregation call), so the embedding is a total function
into the results record. -/
def get_comprehensive_answer (question : String) (env : OrchEnv) : ComprehensiveAnswer :=
  let webUrls : List String := match env.search with | .ok urls => urls | .error _ => []
  let initialWebError : Option String :=
    match env.search with
    | .error _ => some "An error occurred during web search."
    | .ok urls =>
      if !urls.isEmpty && !search_error_marker urls then none
      else if !urls.isEmpty then some ("Web search failed: " ++ urls.headD "")
      else some "Could not find relevant websites for this question."
  let sources : List String :=
    match env.search with
    | .error _ => ["Web search error."]
    | .ok urls =>
      if !urls.isEmpty && !search_error_marker urls then urls
      else if !urls.isEmpty then ["Web search failed."]
      else ["No relevant websites found."]
  let should_run_web_task := !webUrls.isEmpty && initialWebError.isNone
  let rag_res := taskString "Error in RAG task: " env.ragTask
  let llm_res := taskString "Error in LLM task: " env.llmTask
  let web_res : String :=
    match initialWebError with
    | some e => e
    | none => taskString "Error in Web Processing task: " env.webTask
  let aggRes := aggregate_answers question rag_res llm_res web_res env.agg
  let final := if aggRes.answer = "" then "Aggregation resulted in an empty answer."
    else aggRes.answer
  { rag := rag_res, llm := llm_res, web := web_res, final := final,
    sources := sources, webLaunched := should_run_web_task }

/-! ### Page scraper (`web_scraper.py` lines 67-129, `scrape_url`) -/

/-- Outcome of the HTTP fetch and HTML extraction inside `scrape_url`.
The four failure constructors are the four `except` arms (timeout, HTTP
error, other request error, any other exception); `ok` carries the
response's content type and, abstracting the BeautifulSoup extraction, the
text of the main content area (`none` when no main content and no body was
found). -/
inductive HttpFetch where
  | timeout
  | httpError
  | requestError
  | otherError
  | ok (contentType : String) (mainText : Option String)

/-- `web_scraper.py` lines 67-129, `scrape_url`. -/
def scrape_url (env : HttpFetch) : String :=
  match env with
  | .timeout => ""
  | .httpError => ""
  | .requestError => ""
  | .otherError => ""
  | .ok contentType mainText =>
    if !containsSub (pyLower contentType) "html" then ""
    else
      match mainText with
      | none => ""
      | some text_content =>
        let cleaned_text := cleanScraped text_content
        if cleaned_text.length < 100 then "" else cleaned_text

/-! ### Helper lemmas -/

/-- The usable scraped texts, in input URL order: the spec-side view of the
accumulation loop of `_process_web_content`. -/
def usableTexts (scrapes : List ScrapeOutcome) : List String :=
  scrapes.filterMap usable

/-- Concatenation of texts each followed by the `"\n\n"` separator, in
order: the spec-side view of `web_content`. -/
def webJoin : List String → String
  | [] => ""
  | c :: rest => c ++ "\n\n" ++ webJoin rest

theorem web_content_foldl (scrapes : List ScrapeOutcome) (acc : String) :
    scrapes.foldl
        (fun acc r => match usable r with | some c => acc ++ c ++ "\n\n" | none => acc) acc
      = acc ++ webJoin (usableTexts scrapes) := by
  induction scrapes generalizing acc with
  | nil => simp [usableTexts, webJoin, String.append_empty]
  | cons r rest ih =>
    simp only [List.foldl_cons, usableTexts, List.filterMap_cons]
    cases h : usable r with
    | none =>
      simp only [h]
      exact ih acc
    | some c =>
      simp only [h]
      rw [ih]
      simp [usableTexts, webJoin, String.append_assoc]

theorem web_content_of_eq (scrapes : List ScrapeOutcome) :
    web_content_of scrapes = webJoin (usableTexts scrapes) := by
  have h := web_content_foldl scrapes ""
  simpa [web_content_of, String.empty_append] using h

theorem webJoin_eq_empty_iff (l : List String) : webJoin l = "" ↔ l = [] := by
  cases l with
  | nil => simp [webJoin]
  | cons c rest =>
    simp only [webJoin]
    constructor
    · intro h
      have h2 := congrArg String.data h
      simp only [String.data_append] at h2
      rcases List.append_eq_nil.mp (List.append_eq_nil.mp h2).1 with ⟨-, hnn⟩
      exact absurd hnn (by decide)
    · intro h
      exact absurd h (by simp)

theorem no_usable_counts (scrapes : List ScrapeOutcome)
    (h : usableTexts scrapes = []) :
    successful_scrapes scrapes = 0 ∧ failed_scrapes scrapes = scrapes.length := by
  have hall : ∀ r ∈ scrapes, usable r = none :=
    List.filterMap_eq_nil_iff.mp h
  constructor
  · exact List.countP_eq_zero.mpr (fun r hr => by simp [hall r hr])
  · exact List.countP_eq_length.mpr (fun r hr => by simp [hall r hr])

/-! ### Claim theorems -/

/-- C1: for every question and every outcome of the external collaborators
(the search call, both model calls, the retriever and every scrape may all
fail), `get_comprehensive_answer` returns the full results record — the
embedding is a total function into `ComprehensiveAnswer`, mirroring that
every exception path in the source is caught inside the function — and its
`final` field is a non-empty string. -/
theorem getComprehensiveAnswer_final_nonempty (question : String) (env : OrchEnv) :
    (get_comprehensive_answer question env).final ≠ "" := by
  simp only [get_comprehensive_answer]
  split
  · decide
  · next h => exact h

/-- C5 counterexample: the claim classifies a document answer as
TOO_SHORT_HEDGE whenever it is shorter than 50 characters and contains one
of "based on", "context", "content"; but the code's hedging markers for
document/model answers are only "based on" and "context", so the
14-character answer "My content: A." — which the claim's classifier (spec
marker set) puts in TOO_SHORT_HEDGE — is classified OK by the code. -/
theorem classifier_hedge_marker_counterexample :
    specClassifyDoc "My content: A." = AnswerClass.TOO_SHORT_HEDGE ∧
    classifyDoc "My content: A." = AnswerClass.OK := by
  constructor
  · decide
  · decide

/-- C5 amended: classification is UNAVAILABLE exactly when a fixed
per-source non-answer phrase occurs case-insensitively anywhere in the
text; otherwise TOO_SHORT_HEDGE exactly when the length is below 50
(document/model) or 60 (web) and a hedging marker occurs — "based on" or
"context" for document/model answers, "based on" or "content" for
web-synthesis answers; otherwise OK. -/
theorem classifier_matches_amended_spec (t : String) :
    classifyDoc t = specClassifyDocAmended t ∧
    classifyWeb t = specClassifyWebAmended t := by
  constructor
  · rfl
  · rfl

/-- C9 counterexample: a successful baseline completion call whose message
content is the empty string makes `get_llm_answer` return the empty
string, not the fixed "LLM returned an empty response." string — in
`response.content if response else ...` the truthiness test is on the
message object, which is truthy even with empty content. -/
theorem llm_empty_content_counterexample :
    get_llm_answer (LLMEnv.ok (some "")) = "" := rfl

/-- C9 amended: the fixed "LLM returned an empty response." string is
returned exactly when the completion call yields no message object at all
(a falsy response); a successful call's content is returned unchanged even
when it is the empty string, so the baseline fetcher can yield an empty
string. -/
theorem llm_answer_empty_response_amended (c : String) :
    get_llm_answer (LLMEnv.ok none) = "LLM returned an empty response." ∧
    get_llm_answer (LLMEnv.ok (some c)) = c := by
  constructor
  · rfl
  · rfl

/-- C10: `scrape_url` is total — every failure path (timeout, HTTP error,
request error, non-HTML content type, missing main content, any other
exception) yields the empty string rather than an exception — and every
non-empty result has at least 100 characters. -/
theorem scrape_url_total_and_min_length (env : HttpFetch) :
    scrape_url env = "" ∨ 100 ≤ (scrape_url env).length := by
  cases env with
  | timeout => exact Or.inl rfl
  | httpError => exact Or.inl rfl
  | requestError => exact Or.inl rfl
  | otherError => exact Or.inl rfl
  | ok ct mt =>
    simp only [scrape_url]
    split
    · exact Or.inl rfl
    · cases mt with
      | none => exact Or.inl rfl
      | some t =>
        simp only []
        split
        · exact Or.inl rfl
        · next h => exact Or.inr (by omega)

/-- C3: when each of the three raw answers matches its source's
unavailable phrase list, the aggregator performs no completion call and
returns the fixed "Sorry, I could not find a reliable answer from any
source." message followed by the three raw input strings verbatim. -/
theorem aggregate_all_unavailable_short_circuit
    (question rag llm web : String) (call : AggLLMOutcome)
    (h1 : is_non_answer rag_unavailable_msgs rag = true)
    (h2 : is_non_answer llm_unavailable_msgs llm = true)
    (h3 : is_non_answer web_unavailable_msgs web = true) :
    (aggregate_answers question rag llm web call).llmCalled = false ∧
    (aggregate_answers question rag llm web call).answer =
      "Sorry, I could not find a reliable answer from any source.\nDetails:\nDocuments: "
        ++ rag ++ "\nLLM: " ++ llm ++ "\nWeb: " ++ web := by
  have hr : rag_is_available rag = false := by simp [rag_is_available, h1]
  have hl : llm_is_available llm = false := by simp [llm_is_available, h2]
  have hw : web_is_available web = false := by simp [web_is_available, h3]
  simp [aggregate_answers, hr, hl, hw]

/-- C3 witness: three concrete failure strings, each matching its phrase
list; the completion call is skipped and the composed message carries the
three raw inputs. -/
theorem aggregate_all_unavailable_short_circuit_witness :
    (aggregate_answers "Q" "An error occurred while retrieving the RAG answer."
        "An error occurred while contacting the Language Model."
        "Web search failed: Error: Missing Google API credentials."
        AggLLMOutcome.raises).llmCalled = false ∧
    (aggregate_answers "Q" "An error occurred while retrieving the RAG answer."
        "An error occurred while contacting the Language Model."
        "Web search failed: Error: Missing Google API credentials."
        AggLLMOutcome.raises).answer =
      "Sorry, I could not find a reliable answer from any source.\nDetails:\nDocuments: "
        ++ "An error occurred while retrieving the RAG answer."
        ++ "\nLLM: " ++ "An error occurred while contacting the Language Model."
        ++ "\nWeb: " ++ "Web search failed: Error: Missing Google API credentials." :=
  aggregate_all_unavailable_short_circuit _ _ _ _ _ (by decide) (by decide) (by decide)

/-- C4: whenever the synthesis completion call raises (either the async
call or the sync fallback after `NotImplementedError`) and at least one
source is available, the aggregator returns the single best available raw
answer prefixed with "(Aggregation Failed)", preferring the
document-retrieval answer, then the web answer, then the baseline-model
answer.  (When no source is available the code's generic-message line is
unreachable: the all-unavailable fast path returns before any completion
call.) -/
theorem aggregate_fallback_ordering
    (question rag llm web : String) (call : AggLLMOutcome)
    (hraise : aggCallRaised call = true)
    (havail : (rag_is_available rag || web_is_available web || llm_is_available llm) = true) :
    (aggregate_answers question rag llm web call).answer =
      (if rag_is_available rag then
        "(Aggregation Failed) Best answer from documents: " ++ rag
      else if web_is_available web then
        "(Aggregation Failed) Best answer from web: " ++ web
      else
        "(Aggregation Failed) Best answer from baseline LLM: " ++ llm) := by
  cases call with
  | ok resp => simp [aggCallRaised] at hraise
  | raises =>
    cases hr : rag_is_available rag <;> cases hl : llm_is_available llm <;>
      cases hw : web_is_available web <;> simp_all [aggregate_answers]
  | notImpl sync =>
    cases sync with
    | ok resp => simp [aggCallRaised] at hraise
    | error e =>
      cases hr : rag_is_available rag <;> cases hl : llm_is_available llm <;>
        cases hw : web_is_available web <;> simp_all [aggregate_answers]

/-- C4 witness: synthesis raises with only the web answer available; the
result is the web answer with the "(Aggregation Failed)" prefix, and the
empty rag and unavailable llm inputs do not appear. -/
theorem aggregate_fallback_ordering_witness :
    (aggregate_answers "Q" ""
        "An error occurred while contacting the Language Model."
        "Paris is the capital of France."
        AggLLMOutcome.raises).answer =
      "(Aggregation Failed) Best answer from web: " ++ "Paris is the capital of France." := by
  have h := aggregate_fallback_ordering "Q" ""
    "An error occurred while contacting the Language Model."
    "Paris is the capital of France." AggLLMOutcome.raises (by decide) (by decide)
  rw [h]
  decide

/-- C8: with at least one source available, the aggregator's returned
final answer for a successful completion with raw output `raw` is `raw`
with every `<think>...</think>` block removed (non-greedy, spanning
newlines, trailing whitespace swallowed) and the ends stripped — or the
fixed "Aggregation LLM returned an empty response after cleaning." message
when stripping leaves the empty string; and the concrete raw output
"<think>internal notes</think>Final text." cleans to exactly
"Final text.". -/
theorem aggregate_think_stripping
    (question rag llm web raw : String)
    (havail : (rag_is_available rag || web_is_available web || llm_is_available llm) = true) :
    (aggregate_answers question rag llm web (AggLLMOutcome.ok (some raw))).answer =
      (if clean_llm_output raw = "" then
        "Aggregation LLM returned an empty response after cleaning."
      else clean_llm_output raw) ∧
    clean_llm_output "<think>internal notes</think>Final text." = "Final text." := by
  constructor
  · cases hr : rag_is_available rag <;> cases hl : llm_is_available llm <;>
      cases hw : web_is_available web <;> simp_all [aggregate_answers]
  · decide

/-- C8 witness: a concrete aggregation run whose raw completion output is
"<think>internal notes</think>Final text." returns exactly "Final text.". -/
theorem aggregate_think_stripping_witness :
    (aggregate_answers "Q" "The derivative of x squared is two x." "" ""
        (AggLLMOutcome.ok (some "<think>internal notes</think>Final text."))).answer =
      "Final text." := by
  have h := aggregate_think_stripping "Q" "The derivative of x squared is two x." "" ""
    "<think>internal notes</think>Final text." (by decide)
  rw [h.1]
  decide

/-- C2: with a successful search (non-empty URL list, no error marker), if
the baseline-model task raises while the RAG and web tasks return, the
gather barrier absorbs the exception: the bundle carries the RAG and web
results unchanged and replaces the failing source's field with the
"Error in LLM task: " string. -/
theorem gather_isolates_failing_fetcher
    (question : String) (env : OrchEnv) (urls : List String)
    (ragStr webStr errMsg : String)
    (hs : env.search = Except.ok urls) (hne : urls ≠ [])
    (hmk : search_error_marker urls = false)
    (hr : env.ragTask = TaskOutcome.ok ragStr)
    (hl : env.llmTask = TaskOutcome.exc errMsg)
    (hw : env.webTask = TaskOutcome.ok webStr) :
    (get_comprehensive_answer question env).rag = ragStr ∧
    (get_comprehensive_answer question env).llm = "Error in LLM task: " ++ errMsg ∧
    (get_comprehensive_answer question env).web = webStr := by
  have hne' : urls.isEmpty = false := by simp [List.isEmpty_iff, hne]
  simp [get_comprehensive_answer, hs, hr, hl, hw, hmk, hne', taskString]

/-- C2 witness: a concrete bundle in which only the baseline-model task
raises. -/
theorem gather_isolates_failing_fetcher_witness :
    (get_comprehensive_answer "What is a stack?"
        ⟨Except.ok ["https://site.example/a"],
         TaskOutcome.ok "A stack is a LIFO data structure, say the documents.",
         TaskOutcome.exc "boom",
         TaskOutcome.ok "A stack is a last-in first-out collection, say the scraped pages.",
         AggLLMOutcome.ok (some "final")⟩).rag =
      "A stack is a LIFO data structure, say the documents." ∧
    (get_comprehensive_answer "What is a stack?"
        ⟨Except.ok ["https://site.example/a"],
         TaskOutcome.ok "A stack is a LIFO data structure, say the documents.",
         TaskOutcome.exc "boom",
         TaskOutcome.ok "A stack is a last-in first-out collection, say the scraped pages.",
         AggLLMOutcome.ok (some "final")⟩).llm = "Error in LLM task: " ++ "boom" ∧
    (get_comprehensive_answer "What is a stack?"
        ⟨Except.ok ["https://site.example/a"],
         TaskOutcome.ok "A stack is a LIFO data structure, say the documents.",
         TaskOutcome.exc "boom",
         TaskOutcome.ok "A stack is a last-in first-out collection, say the scraped pages.",
         AggLLMOutcome.ok (some "final")⟩).web =
      "A stack is a last-in first-out collection, say the scraped pages." :=
  gather_isolates_failing_fetcher "What is a stack?" _ ["https://site.example/a"] _ _ _
    rfl (by decide) (by decide) rfl rfl rfl

/-- C6: when the search step returns
`["Error: Missing Google API credentials."]`, the web-synthesis fetcher is
never launched, the bundle's `web` field is the fixed "Web search failed:"
message carrying that first element, and `sources` is exactly
`["Web search failed."]`. -/
theorem missing_credentials_skips_web_fetch
    (question : String) (env : OrchEnv)
    (hs : env.search = Except.ok missing_credentials_result) :
    (get_comprehensive_answer question env).webLaunched = false ∧
    (get_comprehensive_answer question env).web =
      "Web search failed: Error: Missing Google API credentials." ∧
    (get_comprehensive_answer question env).sources = ["Web search failed."] := by
  have hm : search_error_marker ["Error: Missing Google API credentials."] = true := by
    decide
  have hne : missing_credentials_result.isEmpty = false := by decide
  refine ⟨?_, ?_, ?_⟩ <;>
    simp [get_comprehensive_answer, hs, hm, hne, missing_credentials_result]

/-- C6 witness: a concrete environment whose search call reports missing
credentials. -/
theorem missing_credentials_skips_web_fetch_witness :
    (get_comprehensive_answer "Q"
        ⟨Except.ok missing_credentials_result, TaskOutcome.ok "r",
         TaskOutcome.ok "l", TaskOutcome.ok "w", AggLLMOutcome.raises⟩).webLaunched = false ∧
    (get_comprehensive_answer "Q"
        ⟨Except.ok missing_credentials_result, TaskOutcome.ok "r",
         TaskOutcome.ok "l", TaskOutcome.ok "w", AggLLMOutcome.raises⟩).web =
      "Web search failed: Error: Missing Google API credentials." ∧
    (get_comprehensive_answer "Q"
        ⟨Except.ok missing_credentials_result, TaskOutcome.ok "r",
         TaskOutcome.ok "l", TaskOutcome.ok "w", AggLLMOutcome.raises⟩).sources =
      ["Web search failed."] :=
  missing_credentials_skips_web_fetch "Q" _ rfl

/-- C7: when at least one scrape yields usable text, the single synthesis
completion call receives exactly the first 15,000 characters of the
concatenation, in input URL order, of the usable scraped texts (each
followed by the "\n\n" separator the loop appends); when no URL yields
usable text, the completion service is never invoked and the fetcher
returns a fixed message (the all-scrapes-failed message when URLs were
given, the no-websites message when none were). -/
theorem web_synthesis_truncation_and_short_circuit
    (scrapes : List ScrapeOutcome) (llmCall : Except Unit String) :
    (usableTexts scrapes ≠ [] →
      (_process_web_content scrapes llmCall).sentContent =
        some (pyTake (webJoin (usableTexts scrapes)) 15000)) ∧
    (usableTexts scrapes = [] →
      (_process_web_content scrapes llmCall).sentContent = none ∧
      (_process_web_content scrapes llmCall).answer =
        (if scrapes.isEmpty then "No websites provided for scraping."
         else "Found websites, but failed to scrape content from any of them.")) := by
  constructor
  · intro hne
    have hwc : web_content_of scrapes ≠ "" := by
      rw [web_content_of_eq]
      exact fun h => hne ((webJoin_eq_empty_iff _).mp h)
    simp only [_process_web_content, web_max_length]
    rw [if_neg hwc]
    rcases llmCall with e | resp
    · simp [web_content_of_eq]
    · simp only []
      split
      · simp [web_content_of_eq]
      · split
        · simp [web_content_of_eq]
        · split
          · simp [web_content_of_eq]
          · simp [web_content_of_eq]
  · intro hempty
    have hwc : web_content_of scrapes = "" := by
      rw [web_content_of_eq, hempty]
      rfl
    obtain ⟨hs, hf⟩ := no_usable_counts scrapes hempty
    simp only [_process_web_content]
    rw [if_pos hwc]
    cases scrapes with
    | nil => simp_all
    | cons r rest =>
      have hpos : 0 < failed_scrapes (r :: rest) := by
        rw [hf]
        simp
      simp_all

/-- C7 witness: one usable scrape among a failed task and an empty scrape;
the synthesis call receives the usable text plus separator, truncated. -/
theorem web_synthesis_truncation_and_short_circuit_witness :
    usableTexts [ScrapeOutcome.ok "alpha", ScrapeOutcome.exc, ScrapeOutcome.ok ""] ≠ [] ∧
    (_process_web_content [ScrapeOutcome.ok "alpha", ScrapeOutcome.exc, ScrapeOutcome.ok ""]
        (Except.ok "A sufficiently long synthesized reply.")).sentContent =
      some (pyTake (webJoin (usableTexts
        [ScrapeOutcome.ok "alpha", ScrapeOutcome.exc, ScrapeOutcome.ok ""])) 15000) :=
  ⟨by decide,
   (web_synthesis_truncation_and_short_circuit
      [ScrapeOutcome.ok "alpha", ScrapeOutcome.exc, ScrapeOutcome.ok ""]
      (Except.ok "A sufficiently long synthesized reply.")).1 (by decide)⟩

end EduAgent
